import Mathlib

/-!
Verification of the rare-disease RAG chat application (streamlit_app.py).

The file shallowly embeds the pure core of the script: the static disease
table, query keyword extraction, the two structured-context lookups, the
mim2gene table construction, prompt assembly, and the answer computation of
one chat turn.  Strings are modelled as Lean strings; Python string
operations (lower, upper, substring containment via the in operator, strip,
split, str.format) are modelled character-exactly for ASCII text on
List Char.  Python dicts are modelled as association lists where insertion
prepends and lookup takes the first binding, which reproduces dict
overwrite-and-get semantics.  Runtime data files (the knowledge-graph JSON
and mim2gene.txt) are not part of the repository, so the corresponding
tables are parameters of the embedded functions.
-/

/-- Apostrophe character (U+0027), used to build string literals that
contain it. -/
def apos : Char := Char.ofNat 39

/-- One-character string holding the apostrophe. -/
def aposS : String := String.singleton apos

/-- Python str.lower for ASCII text, as a character list. -/
def lowerL (s : String) : List Char := s.toList.map Char.toLower

/-- Python str.upper for ASCII text, returning a string. -/
def upperS (s : String) : String := String.mk (s.toList.map Char.toUpper)

/-- Does the pattern occur at the head of the haystack? -/
def startsWithCh : List Char → List Char → Bool
  | [], _ => true
  | _ :: _, [] => false
  | p :: ps, c :: cs => p == c && startsWithCh ps cs

/-- Python substring containment (the in operator on str): the pattern
occurs contiguously somewhere in the haystack. -/
def containsSub (hay pat : List Char) : Bool :=
  match hay with
  | [] => pat.isEmpty
  | _ :: rest => startsWithCh pat hay || containsSub rest pat

/-- Substring containment of a fixed pattern string in a character-list
haystack. -/
def containsStr (hay : List Char) (pat : String) : Bool := containsSub hay pat.toList

/-- Name of the disease written with an apostrophe in the source table. -/
def huntingtons : String := "Huntington" ++ aposS ++ "s Disease"

/-- The disease_name_to_ordo_uri dictionary of the source, in literal
order. -/
def disease_name_to_ordo_uri : List (String × String) :=
  [("Cystic Fibrosis", "http://www.orpha.net/ORDO/Orphanet_586"),
   (huntingtons, "http://www.orpha.net/ORDO/Orphanet_418"),
   ("Duchenne Muscular Dystrophy", "http://www.orpha.net/ORDO/Orphanet_683"),
   ("Spinal Muscular Atrophy", "http://www.orpha.net/ORDO/Orphanet_84"),
   ("Hemophilia A", "http://www.orpha.net/ORDO/Orphanet_448"),
   ("Hemophilia B", "http://www.orpha.net/ORDO/Orphanet_447"),
   ("Gaucher Disease", "http://www.orpha.net/ORDO/Orphanet_355"),
   ("Pompe Disease", "http://www.orpha.net/ORDO/Orphanet_365"),
   ("Neurofibromatosis type 1", "http://www.orpha.net/ORDO/Orphanet_636"),
   ("Prader-Willi Syndrome", "http://www.orpha.net/ORDO/Orphanet_739"),
   ("Angelman Syndrome", "http://www.orpha.net/ORDO/Orphanet_526"),
   ("Rett Syndrome", "http://www.orpha.net/ORDO/Orphanet_802"),
   ("Fragile X Syndrome", "http://www.orpha.net/ORDO/Orphanet_908"),
   ("Phenylketonuria", "http://www.orpha.net/ORDO/Orphanet_716"),
   ("Alpha-1 Antitrypsin Deficiency", "http://www.orpha.net/ORDO/Orphanet_60"),
   ("Marfan Syndrome", "http://www.orpha.net/ORDO/Orphanet_284"),
   ("Ehlers-Danlos Syndrome, Hypermobile Type", "http://www.orpha.net/ORDO/Orphanet_98253"),
   ("Sickle Cell Anemia", "http://www.orpha.net/ORDO/Orphanet_232"),
   ("Thalassemia Major", "http://www.orpha.net/ORDO/Orphanet_821"),
   ("Crigler-Najjar Syndrome Type 1", "http://www.orpha.net/ORDO/Orphanet_792")]

/-- DISEASE_LIST of the source: the dictionary keys in insertion order. -/
def DISEASE_LIST : List String := disease_name_to_ordo_uri.map Prod.fst

/-- Python dict get on an association list: first binding wins (newest
bindings are prepended by the insertion model below). -/
def alGet {β : Type} : List (String × β) → String → Option β
  | [], _ => none
  | (k, v) :: rest, key => if k = key then some v else alGet rest key

/-- Source function extract_disease_from_query: scan the 20 names in table
order for a case-insensitive substring match, then fall back to the loose
synonym rules in their source order. -/
def extract_disease_from_query (query : String) : Option String :=
  let ql := lowerL query
  match DISEASE_LIST.find? (fun d => containsSub ql (lowerL d)) with
  | some d => some d
  | none =>
    if containsStr ql "huntington" then some huntingtons
    else if containsStr ql "sma" || containsStr ql "spinal muscular atrophy" then
      some "Spinal Muscular Atrophy"
    else if containsStr ql "nf1" then some "Neurofibromatosis type 1"
    else if containsStr ql "aatd" || containsStr ql "alpha-1 antitrypsin" then
      some "Alpha-1 Antitrypsin Deficiency"
    else if containsStr ql "fxs" || containsStr ql "fragile x" then
      some "Fragile X Syndrome"
    else if containsStr ql "pku" || containsStr ql "phenylketonuria" then
      some "Phenylketonuria"
    else none

/-- Record stored in the mim_gene_data dictionary: the four fields written
by load_resources for each parsed line.  The entrez id and the gene symbol
are None in Python when the corresponding column is empty. -/
structure GeneRecord where
  mim_number : String
  mim_entry_type : String
  entrez_gene_id : Option String
  approved_gene_symbol : Option String
deriving DecidableEq

/-- The mim_gene_data dictionary, keys to records. -/
abbrev GTable : Type := List (String × GeneRecord)

/-- Word character of the regex word-boundary model: ASCII letters, digits
and underscore. -/
def isWordChar (c : Char) : Bool := c.isAlphanum || c == '_'

/-- Accumulating splitter for wordTokens. -/
def wordTokensGo : List Char → List Char → List (List Char)
  | [], acc => if acc.isEmpty then [] else [acc.reverse]
  | c :: cs, acc =>
    if isWordChar c then wordTokensGo cs (c :: acc)
    else if acc.isEmpty then wordTokensGo cs []
    else acc.reverse :: wordTokensGo cs []

/-- Maximal runs of word characters of the query, in order.  A regex match
delimited by word boundaries on both sides is exactly a whole such token. -/
def wordTokens (cs : List Char) : List (List Char) := wordTokensGo cs []

/-- Token matched by the first regex of extract_gene_or_mim_from_query:
six digits delimited by word boundaries. -/
def isSixDigit (t : List Char) : Bool := t.length == 6 && t.all Char.isDigit

/-- Token matched by the second regex (letter, then at least two letters or
digits, case-insensitive flag set, delimited by word boundaries). -/
def isSymTok : List Char → Bool
  | [] => false
  | c :: rest => c.isAlpha && rest.length ≥ 2 && rest.all (fun d => d.isAlpha || d.isDigit)

/-- Source function extract_gene_or_mim_from_query over an arbitrary
mim_gene_data table: first the six-digit tokens in query order, returning
the first that is a key; then the symbol-shaped tokens in query order,
returning the uppercase form of the first whose uppercase form is a key. -/
def extract_gene_or_mim_from_query (table : GTable) (query : String) : Option String :=
  match (wordTokens query.toList).find? (fun t => isSixDigit t && (alGet table (String.mk t)).isSome) with
  | some t => some (String.mk t)
  | none =>
    match (wordTokens query.toList).find? (fun t => isSymTok t && (alGet table (String.mk (t.map Char.toUpper))).isSome) with
    | some t => some (String.mk (t.map Char.toUpper))
    | none => none

/-- Sentinel string returned by get_blazegraph_context when no usable
knowledge-graph data is found. -/
def kgSentinel : String := "No specific rare disease definitional data found in knowledge graph."

/-- Sentinel string returned by get_mim_gene_context when no gene or MIM
data is found. -/
def mimSentinel : String := "No specific gene or MIM data found in mim2gene.txt."

/-- Entry of the kg_definitional_data JSON dictionary: a JSON object
modelled as an association list of string fields. -/
abbrev KGEntry : Type := List (String × String)

/-- The kg_definitional_data dictionary: ORDO URI to entry. -/
abbrev KGTable : Type := List (String × KGEntry)

/-- Python dict get with a default value. -/
def alGetD (e : KGEntry) (k dflt : String) : String := (alGet e k).getD dflt

/-- Value placed on the Disease Name line of the knowledge-graph block
(source line 132): the comment field when present, else the label field,
else N/A. -/
def kg_name_value (e : KGEntry) : String := alGetD e "comment" (alGetD e "label" "N/A")

/-- Value placed on the Description line of the knowledge-graph block. -/
def kg_desc_value (e : KGEntry) : String := alGetD e "comment" "N/A"

/-- The five-field block built by get_blazegraph_context from a
knowledge-graph entry. -/
def kg_block (e : KGEntry) : String :=
  "Disease Name: " ++ (kg_name_value e ++ ("\n" ++
  ("URI: " ++ (alGetD e "uri" "N/A" ++ ("\n" ++
  ("Description: " ++ (kg_desc_value e ++ ("\n" ++
  ("DB Xref: " ++ (alGetD e "dbXref" "N/A" ++ ("\n" ++
  ("Parent Class: " ++ alGetD e "parentLabel" "N/A"))))))))))))

/-- Source function get_blazegraph_context over an arbitrary
kg_definitional_data table.  The Python code tests the entry with `if
kg_data:`, so a missing URI, a missing entry and an empty entry object all
fall through to the sentinel. -/
def get_blazegraph_context (kg : KGTable) (query : String) : String :=
  match extract_disease_from_query query with
  | none => kgSentinel
  | some disease =>
    match alGet disease_name_to_ordo_uri disease with
    | none => kgSentinel
    | some uri =>
      match alGet kg uri with
      | none => kgSentinel
      | some e => if e.isEmpty then kgSentinel else kg_block e

/-- Source function get_mim_gene_context over an arbitrary mim_gene_data
table.  The result is an Option: some is the returned string, none models
the TypeError that Python raises on the string concatenations when the
looked-up record stores None for the entrez id or the gene symbol (those
dict keys are always present, so the N/A defaults never apply there). -/
def get_mim_gene_context (table : GTable) (query : String) : Option String :=
  match extract_gene_or_mim_from_query table query with
  | some id =>
    match alGet table id with
    | some gi =>
      match gi.entrez_gene_id, gi.approved_gene_symbol with
      | some e, some s =>
        some ("MIM Number: " ++ (gi.mim_number ++ ("\n" ++
          ("MIM Entry Type: " ++ (gi.mim_entry_type ++ ("\n" ++
          ("Entrez Gene ID: " ++ (e ++ ("\n" ++
          ("Approved Gene Symbol: " ++ s))))))))))
      | _, _ => none
    | none => some mimSentinel
  | none => some mimSentinel

/-- Whitespace stripped by Python str.strip. -/
def isPySpace (c : Char) : Bool :=
  c == ' ' || c == '\t' || c == '\n' || c == '\x0d' || c == '\x0b' || c == '\x0c'

/-- Python str.strip on a character list. -/
def stripCh (cs : List Char) : List Char :=
  ((cs.dropWhile isPySpace).reverse.dropWhile isPySpace).reverse

/-- Python str.split with an explicit one-character separator: always
yields one more part than there are separators. -/
def splitOnCh (sep : Char) : List Char → List (List Char)
  | [] => [[]]
  | c :: cs =>
    let r := splitOnCh sep cs
    if c == sep then [] :: r
    else
      match r with
      | h :: t => (c :: h) :: t
      | [] => [[c]]

/-- Parsing of one line of mim2gene.txt by load_resources: comment lines
are skipped, the stripped line is split on tabs, lines with fewer than four
parts are skipped, and empty third or fourth columns become None. -/
def lineFields (line : String) : Option (String × String × Option String × Option String) :=
  match line.toList with
  | '#' :: _ => none
  | cs =>
    match splitOnCh '\t' (stripCh cs) with
    | p0 :: p1 :: p2 :: p3 :: _ =>
      some (String.mk p0, String.mk p1,
        (if p2.isEmpty then none else some (String.mk p2)),
        (if p3.isEmpty then none else some (String.mk p3)))
    | _ => none

/-- One iteration of the load_resources parsing loop: insert the record
under the uppercased symbol (overwriting), then under the entrez id only
when that key is not yet present. -/
def processLine (m : GTable) (line : String) : GTable :=
  match lineFields line with
  | none => m
  | some (mn, met, eo, so) =>
    let r0 : GeneRecord := ⟨mn, met, eo, so⟩
    let m1 : GTable :=
      match so with
      | some s => (upperS s, r0) :: m
      | none => m
    match eo with
    | some e => if (alGet m1 e).isSome then m1 else (e, r0) :: m1
    | none => m1

/-- The mim_gene_data dictionary built by load_resources from the lines of
mim2gene.txt. -/
def build_mim_gene_data (lines : List String) : GTable :=
  lines.foldl processLine []

/-- Keys that one line contributes to the table, symbol key first. -/
def lineKeys (line : String) : List String :=
  match lineFields line with
  | none => []
  | some (_, _, eo, so) =>
    (match so with | some s => [upperS s] | none => []) ++
    (match eo with | some e => [e] | none => [])

/-- disease_list_display of the source: the 20 names joined with a comma
and a space. -/
def disease_list_display : String := String.intercalate ", " DISEASE_LIST

/-- The literal text of the prompt template before the context slot,
assembled exactly as the source concatenates it (the two apostrophes around
the refusal sentence are spliced in via aposS). -/
def promptPreamble : String :=
  "You are a helpful assistant specialized in rare diseases. You only answer questions about the following diseases: " ++
  (disease_list_display ++ (". If asked about anything else, reply: " ++
  (aposS ++ ("Sorry, I can only answer questions about these 20 rare diseases: " ++
  (disease_list_display ++ ("." ++ (aposS ++
  "\n\nFor supported questions:\n- Start with a 2–3 sentence summary (TL;DR).\n- Follow with a comprehensive, structured answer using clear headings, bullet points, and explanations.\n- Do not cite PubMed IDs (PMIDs) in your answer. The actual PMIDs will be shown separately in the Sources section.\n- If you do not know the answer from the provided context, say so and do not make up information.\n\nContext from Scientific Abstracts:\n")))))))

/-- Formatting of the prompt (PROMPT.format of the source): the template has exactly four slots, so
formatting is the concatenation of the literal segments with the four
values substituted verbatim (the literal run between the third slot and the
question slot is written as two adjacent pieces whose concatenation is the
source text). -/
def format_prompt (context blazegraph_context mim_gene_context question : String) : String :=
  promptPreamble ++
  (context ++ ("\n\nStructured Knowledge Graph Context (from Blazegraph):\n" ++
  (blazegraph_context ++ ("\n\nGene and MIM Context (from mim2gene.txt):\n" ++
  (mim_gene_context ++ ("\n\n" ++ ("Question: " ++ (question ++ "\nAnswer:\n"))))))))

/-- Visible answer text of a chat turn, from the outcome of the single
llm.invoke call: the message content on success, and the f-string
"An error occurred: " followed by the description of the raised exception
on failure (source lines 266 to 270). -/
def answer_text_of : Except String String → String
  | Except.ok content => content
  | Except.error e => "An error occurred: " ++ e

/-- The inference step of one chat turn against an oracle stream of
llm.invoke outcomes: the straight-line code performs exactly one call, so
exactly one outcome is consumed and the rest of the stream is returned
untouched (none models an empty oracle, never reached by the code). -/
def llm_turn : List (Except String String) → Option (String × List (Except String String))
  | [] => none
  | r :: rest => some (answer_text_of r, rest)

/-- Spec-side list of the loose synonym rules of
extract_disease_from_query: trigger substring paired with the disease name
the rule returns, in source order. -/
def synonymPairs : List (String × String) :=
  [("huntington", huntingtons),
   ("sma", "Spinal Muscular Atrophy"),
   ("spinal muscular atrophy", "Spinal Muscular Atrophy"),
   ("nf1", "Neurofibromatosis type 1"),
   ("aatd", "Alpha-1 Antitrypsin Deficiency"),
   ("alpha-1 antitrypsin", "Alpha-1 Antitrypsin Deficiency"),
   ("fxs", "Fragile X Syndrome"),
   ("fragile x", "Fragile X Syndrome"),
   ("pku", "Phenylketonuria"),
   ("phenylketonuria", "Phenylketonuria")]

/-- Spec-side predicate: the disease is mentioned in the lowercased query,
either by its name or by one of its listed synonym triggers. -/
def diseaseMatches (ql : List Char) (d : String) : Bool :=
  containsSub ql (lowerL d) ||
    synonymPairs.any (fun p => p.2 == d && containsStr ql p.1)

/-- Spec-side predicate: the token makes extract_gene_or_mim_from_query
fire against the given table, by the six-digit rule or by the
case-insensitive symbol rule. -/
def geneTokenHit (table : GTable) (t : List Char) : Bool :=
  (isSixDigit t && (alGet table (String.mk t)).isSome) ||
  (isSymTok t && (alGet table (String.mk (t.map Char.toUpper))).isSome)

/-- Modelled from the claim wording: an uppercase alphanumeric token (a
symbol-shaped token containing only uppercase letters and digits). -/
def isUpperTok (t : List Char) : Bool :=
  isSymTok t && t.all (fun c => c.isUpper || c.isDigit)

/-- Composition of the two dictionary lookups of get_blazegraph_context:
the knowledge-graph entry reached from an extracted disease name. -/
def kgEntryFor (kg : KGTable) (d : String) : Option KGEntry :=
  match alGet disease_name_to_ordo_uri d with
  | none => none
  | some uri => alGet kg uri

/-- Concrete one-entry gene table used by several concrete evaluations. -/
def table0 : GTable := [("CFTR", ⟨"602421", "gene", some "1080", some "CFTR"⟩)]

/-- Knowledge-graph table whose only entry is an empty object, as a JSON
file may well contain. -/
def kg0 : KGTable := [("http://www.orpha.net/ORDO/Orphanet_586", [])]

/-- Knowledge-graph table with one ordinary entry. -/
def kg1 : KGTable :=
  [("http://www.orpha.net/ORDO/Orphanet_586",
    [("label", "Cystic fibrosis"), ("comment", "A rare congenital disease")])]

/-- First concrete mim2gene line used by the C7 material. -/
def mimLine1 : String := "100\tgene\t5\tABC"

/-- Second concrete mim2gene line, reusing the entrez id of the first. -/
def mimLine2 : String := "200\tgene\t5\tXYZ"

theorem strAppendAssoc (a b c : String) : a ++ b ++ c = a ++ (b ++ c) := by
  apply String.ext
  simp [String.data_append, List.append_assoc]

theorem mim_head_ne (r : String) : "MIM Number: " ++ r ≠ mimSentinel := by
  intro h
  have hL : (("MIM Number: " ++ r).data).head? = some 'M' := rfl
  rw [h] at hL
  exact absurd hL (by decide)

theorem bg_head_ne (r : String) : "Disease Name: " ++ r ≠ kgSentinel := by
  intro h
  have hL : (("Disease Name: " ++ r).data).head? = some 'D' := rfl
  rw [h] at hL
  exact absurd hL (by decide)

theorem get_mim_of_none (table : GTable) (q : String)
    (h : extract_gene_or_mim_from_query table q = none) :
    get_mim_gene_context table q = some mimSentinel := by
  simp [get_mim_gene_context, h]

theorem get_bg_of_none (kg : KGTable) (q : String)
    (h : extract_disease_from_query q = none) :
    get_blazegraph_context kg q = kgSentinel := by
  simp [get_blazegraph_context, h]

/-- C1: for every user question and every value of the other three slots,
the assembled prompt is some text followed by the designated question slot,
holding the question text verbatim and unchanged between the literal
"Question: " marker and the literal "\nAnswer:\n" tail; the assembly is a
total function, so it never fails or escapes anything. -/
theorem c1_question_verbatim (context blazegraph_context mim_gene_context question : String) :
    ∃ before : String,
      format_prompt context blazegraph_context mim_gene_context question =
        before ++ ("Question: " ++ (question ++ "\nAnswer:\n")) := by
  refine ⟨promptPreamble ++ (context ++ ("\n\nStructured Knowledge Graph Context (from Blazegraph):\n" ++
    (blazegraph_context ++ ("\n\nGene and MIM Context (from mim2gene.txt):\n" ++
    (mim_gene_context ++ "\n\n"))))), ?_⟩
  simp only [format_prompt, strAppendAssoc]

/-- C4 counterexample: at the concrete raised error "boom" the visible
answer text is the fixed prefix followed by the description, which is not
exactly the description, so the claim as stated fails. -/
theorem c4_counterexample :
    answer_text_of (Except.error "boom") = "An error occurred: boom" ∧
      answer_text_of (Except.error "boom") ≠ "boom" := by
  constructor
  · rfl
  · decide

/-- C4 amended: if the single remote inference call raises any error, the
visible answer text for the turn is the fixed prefix "An error occurred: "
followed by the raised error description verbatim, and exactly one outcome
is consumed from the oracle (no retry). -/
theorem c4_error_text (e : String) (rest : List (Except String String)) :
    llm_turn (Except.error e :: rest) = some ("An error occurred: " ++ e, rest) := rfl

/-- C10: in the knowledge-graph block, whenever the entry has a comment
field the Disease Name line carries the comment value, equal to the
Description line value; the label field is used for Disease Name only when
the comment field is absent. -/
theorem c10_comment_field (e : KGEntry) :
    (∀ c, alGet e "comment" = some c → kg_name_value e = c ∧ kg_desc_value e = c) ∧
      (alGet e "comment" = none → kg_name_value e = alGetD e "label" "N/A") := by
  constructor
  · intro c hc
    simp [kg_name_value, kg_desc_value, alGetD, hc]
  · intro hc
    simp [kg_name_value, alGetD, hc]

/-- C10 witness: on a concrete entry holding both fields, the Disease Name
and Description values are both the comment value. -/
theorem c10_witness :
    kg_name_value [("comment", "a description"), ("label", "a label")] = "a description" ∧
      kg_desc_value [("comment", "a description"), ("label", "a label")] = "a description" :=
  (c10_comment_field [("comment", "a description"), ("label", "a label")]).1
    "a description" (by decide)

/-- C6: lookup misses degrade to the fixed sentinels and neither context
function fails on a miss: when gene/MIM extraction returns no match,
get_mim_gene_context returns its sentinel, and when disease extraction
returns no match, get_blazegraph_context returns its sentinel. -/
theorem c6_misses_degrade (table : GTable) (kg : KGTable) (q : String) :
    (extract_gene_or_mim_from_query table q = none →
      get_mim_gene_context table q = some mimSentinel) ∧
    (extract_disease_from_query q = none → get_blazegraph_context kg q = kgSentinel) :=
  ⟨get_mim_of_none table q, get_bg_of_none kg q⟩

/-- C6 witness: on a concrete query matching nothing, both context
functions return their sentinels. -/
theorem c6_witness :
    get_mim_gene_context [] "hello there" = some mimSentinel ∧
      get_blazegraph_context [] "hello there" = kgSentinel :=
  ⟨(c6_misses_degrade [] [] "hello there").1 (by decide),
   (c6_misses_degrade [] [] "hello there").2 (by decide)⟩

theorem extract_gene_none_iff (table : GTable) (q : String) :
    extract_gene_or_mim_from_query table q = none ↔
      ∀ t ∈ wordTokens q.toList, geneTokenHit table t = false := by
  constructor
  · intro h t ht
    simp only [extract_gene_or_mim_from_query] at h
    rcases h6 : (wordTokens q.toList).find?
        (fun t => isSixDigit t && (alGet table (String.mk t)).isSome) with _ | t6
    · rw [h6] at h
      rcases hs : (wordTokens q.toList).find?
          (fun t => isSymTok t && (alGet table (String.mk (t.map Char.toUpper))).isSome) with _ | ts
      · have hne : ¬ (geneTokenHit table t = true) := by
          intro hq
          simp only [geneTokenHit, Bool.or_eq_true] at hq
          rcases hq with hq | hq
          · exact (List.find?_eq_none.mp h6 t ht) hq
          · exact (List.find?_eq_none.mp hs t ht) hq
        simpa using hne
      · rw [hs] at h
        simp at h
    · rw [h6] at h
      simp at h
  · intro h
    have h6 : (wordTokens q.toList).find?
        (fun t => isSixDigit t && (alGet table (String.mk t)).isSome) = none := by
      apply List.find?_eq_none.mpr
      intro t ht hq
      have hhit := h t ht
      simp only [geneTokenHit, Bool.or_eq_false_iff] at hhit
      rw [hhit.1] at hq
      exact Bool.false_ne_true hq
    have hs : (wordTokens q.toList).find?
        (fun t => isSymTok t && (alGet table (String.mk (t.map Char.toUpper))).isSome) = none := by
      apply List.find?_eq_none.mpr
      intro t ht hq
      have hhit := h t ht
      simp only [geneTokenHit, Bool.or_eq_false_iff] at hhit
      rw [hhit.2] at hq
      exact Bool.false_ne_true hq
    simp only [extract_gene_or_mim_from_query, h6, hs]

theorem extract_gene_sound (table : GTable) (q : String) (id : String)
    (h : extract_gene_or_mim_from_query table q = some id) :
    (alGet table id).isSome = true ∧
      ∃ t ∈ wordTokens q.toList, geneTokenHit table t = true ∧
        (id = String.mk t ∨ id = String.mk (t.map Char.toUpper)) := by
  simp only [extract_gene_or_mim_from_query] at h
  rcases h6 : (wordTokens q.toList).find?
      (fun t => isSixDigit t && (alGet table (String.mk t)).isSome) with _ | t6
  · rw [h6] at h
    rcases hs : (wordTokens q.toList).find?
        (fun t => isSymTok t && (alGet table (String.mk (t.map Char.toUpper))).isSome) with _ | ts
    · rw [hs] at h
      simp at h
    · rw [hs] at h
      have hid : id = String.mk (ts.map Char.toUpper) := by
        injection h with h'
        exact h'.symm
      have hp := List.find?_some hs
      have hm := List.mem_of_find?_eq_some hs
      simp only [Bool.and_eq_true] at hp
      subst hid
      refine ⟨hp.2, ts, hm, ?_, Or.inr rfl⟩
      simp [geneTokenHit, hp.1, hp.2]
  · rw [h6] at h
    have hid : id = String.mk t6 := by
      injection h with h'
      exact h'.symm
    have hp := List.find?_some h6
    have hm := List.mem_of_find?_eq_some h6
    simp only [Bool.and_eq_true] at hp
    subst hid
    refine ⟨hp.2, t6, hm, ?_, Or.inl rfl⟩
    simp [geneTokenHit, hp.1, hp.2]

/-- C9: whenever gene/MIM extraction returns an identifier, that identifier
is a key of the gene table, so the inner lookup of get_mim_gene_context
never misses; and get_mim_gene_context returns its sentinel only when
extraction returned no match. -/
theorem c9_extraction_sound (table : GTable) (q : String) :
    (∀ id, extract_gene_or_mim_from_query table q = some id →
        (alGet table id).isSome = true) ∧
      (get_mim_gene_context table q = some mimSentinel →
        extract_gene_or_mim_from_query table q = none) := by
  constructor
  · intro id h
    exact (extract_gene_sound table q id h).1
  · intro h
    rcases hE : extract_gene_or_mim_from_query table q with _ | id
    · rfl
    · exfalso
      have h1 := (extract_gene_sound table q id hE).1
      rcases hG : alGet table id with _ | gi
      · rw [hG] at h1
        simp at h1
      · simp only [get_mim_gene_context, hE, hG] at h
        rcases hge : gi.entrez_gene_id with _ | e
        · rw [hge] at h
          simp at h
        · rcases hgs : gi.approved_gene_symbol with _ | s
          · rw [hge, hgs] at h
            simp at h
          · rw [hge, hgs] at h
            injection h with h'
            exact mim_head_ne _ h'

/-- C9 witness: on a concrete query naming a key of a concrete table, the
extracted identifier is a key of the table. -/
theorem c9_witness : (alGet table0 "CFTR").isSome = true :=
  (c9_extraction_sound table0 "the CFTR gene").1 "CFTR" (by decide)

/-- C3 counterexample: in the concrete query "cftr gene info" against a
table whose only key is CFTR, no token is a six-digit key and no token is
an uppercase alphanumeric token that is a key, yet extraction returns CFTR
(the second regex is compiled with the IGNORECASE flag), so the claim as
stated fails on this input. -/
theorem c3_counterexample :
    (∀ t ∈ wordTokens ("cftr gene info".toList),
        ¬(isSixDigit t = true ∧ (alGet table0 (String.mk t)).isSome = true) ∧
        ¬(isUpperTok t = true ∧ (alGet table0 (String.mk t)).isSome = true)) ∧
      extract_gene_or_mim_from_query table0 "cftr gene info" = some "CFTR" := by
  constructor
  · decide
  · decide

/-- C3 amended: token matching is case-insensitive for the symbol rule.
Extraction returns no match exactly when the query has no word token that
fires (a six-digit token that is a key, or a letter-initial alphanumeric
token of length at least three whose uppercased form is a key); when it
returns an identifier, that identifier is a key of the table obtained from
such a firing token, either the token itself or its uppercased form. -/
theorem c3_gene_extraction (table : GTable) (q : String) :
    (extract_gene_or_mim_from_query table q = none ↔
        ∀ t ∈ wordTokens q.toList, geneTokenHit table t = false) ∧
      (∀ id, extract_gene_or_mim_from_query table q = some id →
        (alGet table id).isSome = true ∧
          ∃ t ∈ wordTokens q.toList, geneTokenHit table t = true ∧
            (id = String.mk t ∨ id = String.mk (t.map Char.toUpper))) :=
  ⟨extract_gene_none_iff table q, fun id h => extract_gene_sound table q id h⟩

/-- C3 witness: on a concrete query with no firing token, extraction
returns no match. -/
theorem c3_witness : extract_gene_or_mim_from_query table0 "no identifiers here" = none :=
  (c3_gene_extraction table0 "no identifiers here").1.mpr (by decide)

theorem extract_disease_none_iff (q : String) :
    extract_disease_from_query q = none ↔
      ((∀ d ∈ DISEASE_LIST, containsSub (lowerL q) (lowerL d) = false) ∧
       (∀ p ∈ synonymPairs, containsStr (lowerL q) p.1 = false)) := by
  constructor
  · intro h
    rcases hf : DISEASE_LIST.find? (fun d => containsSub (lowerL q) (lowerL d)) with _ | d0
    · simp only [extract_disease_from_query, hf] at h
      split_ifs at h with h1 h2 h3 h4 h5 h6
      refine ⟨fun d hd => ?_, fun p hp => ?_⟩
      · simpa using List.find?_eq_none.mp hf d hd
      · have hh1 : containsStr (lowerL q) "huntington" = false := by
          simpa using h1
        have hh2 : containsStr (lowerL q) "sma" = false ∧
            containsStr (lowerL q) "spinal muscular atrophy" = false := by
          simpa [not_or] using h2
        have hh3 : containsStr (lowerL q) "nf1" = false := by
          simpa using h3
        have hh4 : containsStr (lowerL q) "aatd" = false ∧
            containsStr (lowerL q) "alpha-1 antitrypsin" = false := by
          simpa [not_or] using h4
        have hh5 : containsStr (lowerL q) "fxs" = false ∧
            containsStr (lowerL q) "fragile x" = false := by
          simpa [not_or] using h5
        have hh6 : containsStr (lowerL q) "pku" = false ∧
            containsStr (lowerL q) "phenylketonuria" = false := by
          simpa [not_or] using h6
        simp only [synonymPairs, List.mem_cons, List.not_mem_nil, or_false] at hp
        rcases hp with rfl | rfl | rfl | rfl | rfl | rfl | rfl | rfl | rfl | rfl
        exacts [hh1, hh2.1, hh2.2, hh3, hh4.1, hh4.2, hh5.1, hh5.2, hh6.1, hh6.2]
    · simp only [extract_disease_from_query, hf] at h
      exact Option.noConfusion h
  · rintro ⟨hn, hs⟩
    have hf : DISEASE_LIST.find? (fun d => containsSub (lowerL q) (lowerL d)) = none := by
      apply List.find?_eq_none.mpr
      intro d hd hq
      rw [hn d hd] at hq
      exact Bool.false_ne_true hq
    have t1 : containsStr (lowerL q) "huntington" = false :=
      hs ("huntington", huntingtons) (by simp [synonymPairs])
    have t2 : containsStr (lowerL q) "sma" = false :=
      hs ("sma", "Spinal Muscular Atrophy") (by simp [synonymPairs])
    have t3 : containsStr (lowerL q) "spinal muscular atrophy" = false :=
      hs ("spinal muscular atrophy", "Spinal Muscular Atrophy") (by simp [synonymPairs])
    have t4 : containsStr (lowerL q) "nf1" = false :=
      hs ("nf1", "Neurofibromatosis type 1") (by simp [synonymPairs])
    have t5 : containsStr (lowerL q) "aatd" = false :=
      hs ("aatd", "Alpha-1 Antitrypsin Deficiency") (by simp [synonymPairs])
    have t6 : containsStr (lowerL q) "alpha-1 antitrypsin" = false :=
      hs ("alpha-1 antitrypsin", "Alpha-1 Antitrypsin Deficiency") (by simp [synonymPairs])
    have t7 : containsStr (lowerL q) "fxs" = false :=
      hs ("fxs", "Fragile X Syndrome") (by simp [synonymPairs])
    have t8 : containsStr (lowerL q) "fragile x" = false :=
      hs ("fragile x", "Fragile X Syndrome") (by simp [synonymPairs])
    have t9 : containsStr (lowerL q) "pku" = false :=
      hs ("pku", "Phenylketonuria") (by simp [synonymPairs])
    have t10 : containsStr (lowerL q) "phenylketonuria" = false :=
      hs ("phenylketonuria", "Phenylketonuria") (by simp [synonymPairs])
    simp only [extract_disease_from_query, hf]
    rw [t1, t2, t3, t4, t5, t6, t7, t8, t9, t10]
    simp

/-- C2 counterexample: in the concrete query "hemophilia a and cystic
fibrosis" the supported name Hemophilia A appears case-insensitively, yet
extraction returns Cystic Fibrosis (the first match in table order), so the
claim as stated fails on this input. -/
theorem c2_counterexample :
    "Hemophilia A" ∈ DISEASE_LIST ∧
      containsSub (lowerL "hemophilia a and cystic fibrosis") (lowerL "Hemophilia A") = true ∧
      extract_disease_from_query "hemophilia a and cystic fibrosis" = some "Cystic Fibrosis" ∧
      ("Cystic Fibrosis" : String) ≠ "Hemophilia A" := by
  refine ⟨by decide, by decide, by decide, by decide⟩

/-- C2 amended: disease extraction returns no match exactly when none of
the 20 names and none of the listed synonym triggers occurs
case-insensitively in the query; when it returns a disease, that disease is
one of the 20 and its name or one of its listed synonyms occurs in the
query (the fixed scan order, names in table order then synonym rules,
decides which match wins when several occur). -/
theorem c2_disease_extraction (q : String) :
    (extract_disease_from_query q = none ↔
        ((∀ d ∈ DISEASE_LIST, containsSub (lowerL q) (lowerL d) = false) ∧
         (∀ p ∈ synonymPairs, containsStr (lowerL q) p.1 = false))) ∧
      (∀ d, extract_disease_from_query q = some d →
        d ∈ DISEASE_LIST ∧ diseaseMatches (lowerL q) d = true) := by
  refine ⟨extract_disease_none_iff q, ?_⟩
  intro d h
  rcases hf : DISEASE_LIST.find? (fun x => containsSub (lowerL q) (lowerL x)) with _ | d0
  · simp only [extract_disease_from_query, hf] at h
    split_ifs at h with h1 h2 h3 h4 h5 h6
    · injection h with h'
      subst h'
      exact ⟨by decide, by simp [diseaseMatches, synonymPairs, h1]⟩
    · injection h with h'
      subst h'
      rw [Bool.or_eq_true] at h2
      rcases h2 with hc | hc
      · exact ⟨by decide, by simp [diseaseMatches, synonymPairs, hc]⟩
      · exact ⟨by decide, by simp [diseaseMatches, synonymPairs, hc]⟩
    · injection h with h'
      subst h'
      exact ⟨by decide, by simp [diseaseMatches, synonymPairs, h3]⟩
    · injection h with h'
      subst h'
      rw [Bool.or_eq_true] at h4
      rcases h4 with hc | hc
      · exact ⟨by decide, by simp [diseaseMatches, synonymPairs, hc]⟩
      · exact ⟨by decide, by simp [diseaseMatches, synonymPairs, hc]⟩
    · injection h with h'
      subst h'
      rw [Bool.or_eq_true] at h5
      rcases h5 with hc | hc
      · exact ⟨by decide, by simp [diseaseMatches, synonymPairs, hc]⟩
      · exact ⟨by decide, by simp [diseaseMatches, synonymPairs, hc]⟩
    · injection h with h'
      subst h'
      rw [Bool.or_eq_true] at h6
      rcases h6 with hc | hc
      · exact ⟨by decide, by simp [diseaseMatches, synonymPairs, hc]⟩
      · exact ⟨by decide, by simp [diseaseMatches, synonymPairs, hc]⟩
  · simp only [extract_disease_from_query, hf] at h
    injection h with h'
    subst h'
    refine ⟨List.mem_of_find?_eq_some hf, ?_⟩
    have hp := List.find?_some hf
    simp [diseaseMatches, hp]

/-- C2 witness: on a concrete query containing only the pku synonym,
extraction returns Phenylketonuria, which is among the 20 names and is
matched by the query. -/
theorem c2_witness :
    "Phenylketonuria" ∈ DISEASE_LIST ∧
      diseaseMatches (lowerL "pku levels") "Phenylketonuria" = true :=
  (c2_disease_extraction "pku levels").2 "Phenylketonuria" (by decide)

/-- C5 counterexample: with a knowledge dictionary in which the Cystic
Fibrosis URI is bound to an empty entry, the query "cystic fibrosis"
extracts a disease whose URI has an entry, yet the function returns the
sentinel instead of the five-field block built from that entry (the code
tests the entry for truthiness, and an empty object is falsy), so the
claim as stated fails on this input. -/
theorem c5_counterexample :
    extract_disease_from_query "cystic fibrosis" = some "Cystic Fibrosis" ∧
      kgEntryFor kg0 "Cystic Fibrosis" = some [] ∧
      get_blazegraph_context kg0 "cystic fibrosis" = kgSentinel ∧
      kgSentinel ≠ kg_block [] := by
  refine ⟨by decide, by decide, by decide, by decide⟩

/-- C5 amended: get_blazegraph_context returns the sentinel exactly when no
disease is extracted, the extracted disease reaches no entry, or the entry
it reaches is an empty object; in every other case it returns the
five-field block built from the entry. -/
theorem c5_blazegraph_context (kg : KGTable) (q : String) :
    (get_blazegraph_context kg q = kgSentinel ↔
        (extract_disease_from_query q = none ∨
          ∃ d, extract_disease_from_query q = some d ∧
            (kgEntryFor kg d = none ∨ kgEntryFor kg d = some []))) ∧
      (∀ d e, extract_disease_from_query q = some d → kgEntryFor kg d = some e →
        e ≠ [] → get_blazegraph_context kg q = kg_block e) := by
  constructor
  · constructor
    · intro h
      rcases hd : extract_disease_from_query q with _ | d
      · exact Or.inl rfl
      · refine Or.inr ⟨d, rfl, ?_⟩
        rcases hu : alGet disease_name_to_ordo_uri d with _ | uri
        · exact Or.inl (by simp [kgEntryFor, hu])
        · rcases hk : alGet kg uri with _ | e
          · exact Or.inl (by simp [kgEntryFor, hu, hk])
          · rcases he : e with _ | ⟨p, rest⟩
            · exact Or.inr (by simp [kgEntryFor, hu, hk, he])
            · exfalso
              subst he
              simp only [get_blazegraph_context, hd, hu, hk, List.isEmpty_cons,
                if_false, Bool.false_eq_true, if_neg] at h
              exact bg_head_ne _ h
    · intro h
      rcases h with h | ⟨d, hd, h⟩
      · exact get_bg_of_none kg q h
      · rcases h with h | h
        · simp only [kgEntryFor] at h
          rcases hu : alGet disease_name_to_ordo_uri d with _ | uri
          · simp only [get_blazegraph_context, hd, hu]
          · simp only [hu] at h
            simp only [get_blazegraph_context, hd, hu, h]
        · simp only [kgEntryFor] at h
          rcases hu : alGet disease_name_to_ordo_uri d with _ | uri
          · simp only [hu] at h
            exact Option.noConfusion h
          · simp only [hu] at h
            simp only [get_blazegraph_context, hd, hu, h]
            simp
  · intro d e hd hk hne
    simp only [kgEntryFor] at hk
    rcases hu : alGet disease_name_to_ordo_uri d with _ | uri
    · simp only [hu] at hk
      exact Option.noConfusion hk
    · simp only [hu] at hk
      have hemp : e.isEmpty = false := by
        rcases e with _ | ⟨p, r⟩
        · exact absurd rfl hne
        · rfl
      simp only [get_blazegraph_context, hd, hu, hk, hemp]
      simp

/-- C5 witness: on a concrete dictionary with an ordinary Cystic Fibrosis
entry, the query "cystic fibrosis" yields the five-field block of that
entry. -/
theorem c5_witness :
    get_blazegraph_context kg1 "cystic fibrosis" =
      kg_block [("label", "Cystic fibrosis"), ("comment", "A rare congenital disease")] :=
  (c5_blazegraph_context kg1 "cystic fibrosis").2 "Cystic Fibrosis"
    [("label", "Cystic fibrosis"), ("comment", "A rare congenital disease")]
    (by decide) (by decide) (by decide)

/-- C8: for the concrete query "What is hemophilia A?", disease extraction
returns exactly Hemophilia A; and under the precondition of the claim that no
word token of the query, uppercased, is a key of the gene table, gene/MIM
extraction returns no match, so the gene/MIM context is the sentinel. -/
theorem c8_example_query (table : GTable)
    (h : ∀ t ∈ wordTokens ("What is hemophilia A?".toList),
      alGet table (String.mk (t.map Char.toUpper)) = none) :
    extract_disease_from_query "What is hemophilia A?" = some "Hemophilia A" ∧
      extract_gene_or_mim_from_query table "What is hemophilia A?" = none ∧
      get_mim_gene_context table "What is hemophilia A?" = some mimSentinel := by
  have hsix : ∀ t ∈ wordTokens ("What is hemophilia A?".toList), isSixDigit t = false := by
    decide
  have hext : extract_gene_or_mim_from_query table "What is hemophilia A?" = none := by
    apply (extract_gene_none_iff table "What is hemophilia A?").mpr
    intro t ht
    simp [geneTokenHit, hsix t ht, h t ht]
  exact ⟨by decide, hext, get_mim_of_none table _ hext⟩

/-- C8 witness: with the empty gene table, which satisfies the
precondition, the example query yields the Hemophilia A extraction, a
gene/MIM no-match, and the sentinel context. -/
theorem c8_witness :
    extract_disease_from_query "What is hemophilia A?" = some "Hemophilia A" ∧
      extract_gene_or_mim_from_query [] "What is hemophilia A?" = none ∧
      get_mim_gene_context [] "What is hemophilia A?" = some mimSentinel :=
  c8_example_query [] (by decide)

theorem alGet_cons_ne {β : Type} (m : List (String × β)) (k key : String) (v : β)
    (h : k ≠ key) : alGet ((k, v) :: m) key = alGet m key := by
  simp [alGet, h]

theorem alGet_cons_self {β : Type} (m : List (String × β)) (k : String) (v : β) :
    alGet ((k, v) :: m) k = some v := by
  simp [alGet]

theorem lookup_processLine_untouched (m : GTable) (l : String) (k : String)
    (h : ¬ k ∈ lineKeys l) : alGet (processLine m l) k = alGet m k := by
  rcases hf : lineFields l with _ | f
  · simp [processLine, hf]
  · obtain ⟨mn, met, eo, so⟩ := f
    simp only [lineKeys, hf] at h
    simp only [processLine, hf]
    rcases so with _ | s
    · rcases eo with _ | e
      · rfl
      · simp only [List.nil_append, List.mem_singleton] at h
        by_cases hg : (alGet m e).isSome
        · simp [hg]
        · simp only [hg, Bool.false_eq_true, if_false, if_neg]
          exact alGet_cons_ne m e k _ (fun hh => h hh.symm)
    · rcases eo with _ | e
      · simp only [List.append_nil, List.mem_singleton] at h
        exact alGet_cons_ne m (upperS s) k _ (fun hh => h hh.symm)
      · simp only [List.cons_append, List.nil_append, List.mem_cons,
          List.mem_singleton, not_or] at h
        obtain ⟨hks, hke, -⟩ := h
        by_cases hg : (alGet ((upperS s, (⟨mn, met, some e, some s⟩ : GeneRecord)) :: m) e).isSome
        · simp only [hg, if_true]
          exact alGet_cons_ne m (upperS s) k _ (fun hh => hks hh.symm)
        · simp only [hg, Bool.false_eq_true, if_false, if_neg]
          rw [alGet_cons_ne _ e k _ (fun hh => hke hh.symm)]
          exact alGet_cons_ne m (upperS s) k _ (fun hh => hks hh.symm)

theorem lookup_fold_untouched (lines : List String) : ∀ (m : GTable) (k : String),
    ¬ k ∈ (lines.map lineKeys).flatten →
    alGet (List.foldl processLine m lines) k = alGet m k := by
  induction lines with
  | nil => intro m k _; rfl
  | cons l ls ih =>
    intro m k h
    simp only [List.map_cons, List.flatten_cons, List.mem_append, not_or] at h
    rw [List.foldl_cons, ih (processLine m l) k h.2]
    exact lookup_processLine_untouched m l k h.1

theorem build_fresh (lines : List String) : ∀ (m : GTable),
    ((lines.map lineKeys).flatten).Nodup →
    (∀ k, k ∈ (lines.map lineKeys).flatten → alGet m k = none) →
    ∀ line ∈ lines, ∀ mn met e s, lineFields line = some (mn, met, some e, some s) →
      alGet (List.foldl processLine m lines) (upperS s) = some ⟨mn, met, some e, some s⟩ ∧
      alGet (List.foldl processLine m lines) e = some ⟨mn, met, some e, some s⟩ := by
  induction lines with
  | nil =>
    intro m _ _ line hline
    exact absurd hline (List.not_mem_nil line)
  | cons l ls ih =>
    intro m hnd hfresh line hline mn met e s hf
    simp only [List.map_cons, List.flatten_cons] at hnd hfresh
    rw [List.foldl_cons]
    rcases List.mem_cons.mp hline with rfl | hmem
    · have hkeys : lineKeys line = [upperS s, e] := by
        simp [lineKeys, hf]
      rw [hkeys] at hnd hfresh
      obtain ⟨hnd1, _, hdisj⟩ := List.nodup_append.mp hnd
      have hse : upperS s ≠ e := by
        simpa using hnd1
      have hsJ : ¬ upperS s ∈ (ls.map lineKeys).flatten := hdisj (by simp)
      have heJ : ¬ e ∈ (ls.map lineKeys).flatten := hdisj (by simp)
      have hme : alGet m e = none := hfresh e (by simp)
      have hg : (alGet ((upperS s, (⟨mn, met, some e, some s⟩ : GeneRecord)) :: m) e).isSome
          = false := by
        rw [alGet_cons_ne m (upperS s) e _ hse, hme]
        rfl
      have hstep : processLine m line =
          (e, (⟨mn, met, some e, some s⟩ : GeneRecord)) ::
            (upperS s, (⟨mn, met, some e, some s⟩ : GeneRecord)) :: m := by
        simp only [processLine, hf, hg, Bool.false_eq_true, if_false, if_neg]
      rw [lookup_fold_untouched ls (processLine m line) (upperS s) hsJ,
        lookup_fold_untouched ls (processLine m line) e heJ, hstep]
      constructor
      · rw [alGet_cons_ne _ e (upperS s) _ (Ne.symm hse)]
        exact alGet_cons_self _ _ _
      · exact alGet_cons_self _ _ _
    · obtain ⟨_, hndJ, hdisj⟩ := List.nodup_append.mp hnd
      apply ih (processLine m l) hndJ ?_ line hmem mn met e s hf
      intro k hk
      rw [lookup_processLine_untouched m l k (fun hc => hdisj hc hk)]
      exact hfresh k (List.mem_append.mpr (Or.inr hk))

/-- C7 counterexample: in a file whose second line reuses the entrez gene
id of the first, the second parsed line has both a symbol and an external
id, yet after building the table its symbol key holds its own record while
its external-id key still holds the record of the first line (the entrez insert
is guarded by membership), so the claim as stated fails on this input. -/
theorem c7_counterexample :
    lineFields mimLine2 = some ("200", "gene", some "5", some "XYZ") ∧
      mimLine2 ∈ [mimLine1, mimLine2] ∧
      alGet (build_mim_gene_data [mimLine1, mimLine2]) (upperS "XYZ") =
        some ⟨"200", "gene", some "5", some "XYZ"⟩ ∧
      alGet (build_mim_gene_data [mimLine1, mimLine2]) "5" =
        some ⟨"100", "gene", some "5", some "ABC"⟩ ∧
      (⟨"100", "gene", some "5", some "ABC"⟩ : GeneRecord) ≠
        ⟨"200", "gene", some "5", some "XYZ"⟩ := by
  refine ⟨by decide, by decide, by decide, by decide, by decide⟩

/-- C7 amended: provided the keys contributed by the parsed lines
(uppercased symbols and external ids) are pairwise distinct, every parsed
line that has both an approved symbol and an external id ends with its two
keys bound to the same four-field record in the built table. -/
theorem c7_two_keys (lines : List String) (line : String) (mn met e s : String)
    (hnd : ((lines.map lineKeys).flatten).Nodup) (hmem : line ∈ lines)
    (hf : lineFields line = some (mn, met, some e, some s)) :
    alGet (build_mim_gene_data lines) (upperS s) = some ⟨mn, met, some e, some s⟩ ∧
      alGet (build_mim_gene_data lines) e = some ⟨mn, met, some e, some s⟩ :=
  build_fresh lines [] hnd (fun _ _ => rfl) line hmem mn met e s hf

/-- C7 witness: on a concrete single-line file both keys of the line are
bound to the same record. -/
theorem c7_witness :
    alGet (build_mim_gene_data [mimLine1]) (upperS "ABC") =
        some ⟨"100", "gene", some "5", some "ABC"⟩ ∧
      alGet (build_mim_gene_data [mimLine1]) "5" =
        some ⟨"100", "gene", some "5", some "ABC"⟩ :=
  c7_two_keys [mimLine1] mimLine1 "100" "gene" "5" "ABC" (by decide) (by decide) (by decide)
